import Mathlib

/-!
Verification of the Clinic-Management-System repository (mental-wellness
telehealth platform).  The definitions below are a shallow embedding of the
TypeScript source: the chatbot route (`backend/src/routes/chatbot.ts`) is
translated directly; endpoints whose backend implementation is not part of
the source tree (appointments, reviews, status updates, role guards) are
modelled from the specification and marked as such in their doc comments.
-/

/- ## Chatbot responder (backend/src/routes/chatbot.ts, generateLocalResponse) -/

def greetings : List String := [
  "Hi, I'm here with you. How are you feeling right now?",
  "Hello. Thanks for reaching out—what's on your mind?",
  "Hey, I'm listening. Want to tell me a bit more about it?"
]

def anxietyResponses : List String := [
  "It sounds like anxiety is showing up. Try taking 5 deep breaths: inhale for 4 counts, hold for 4, exhale for 6. What usually helps you feel a little safer?",
  "Those anxious waves can feel intense. Try a slow exhale (6 counts). What triggered it today?"
]

def lowMood : List String := [
  "I'm sorry it's heavy. Small steps help—maybe a glass of water or a short stretch. What would feel kind to yourself right now?",
  "Feeling low can be exhausting. You matter. Would writing down one worry help externalize it?"
]

def stressResponses : List String := [
  "Stress piles up fast. Let’s prioritize: what is one small task you can do next?",
  "Your nervous system might need a micro-break. 5 slow breaths, shoulders down, unclench jaw."
]

def sleepResponses : List String := [
  "Sleep troubles are tough. Try dimming lights, avoiding screens 30 minutes before bed, and a calm breath pattern (4-4-6).",
  "If your mind is racing, a quick brain dump on paper can help before bed."
]

def angerResponses : List String := [
  "Anger is a valid signal. If safe, step back, cool water on wrists, and name what boundary was crossed.",
  "Let’s channel it safely: paced breathing and a short walk can release tension."
]

def panicResponses : List String := [
  "Panic can feel scary but it will pass. Look around and name 5 things you can see. I’m here with you.",
  "Place a hand on your chest and feel the rise and fall—let your exhale be longer than your inhale."
]

def relationshipResponses : List String := [
  "Relationships are complex. Would you like to try an “I feel… when… I need…” statement?",
  "Can we clarify the need underneath the conflict? What are you hoping to feel more of?"
]

def workStudy : List String := [
  "Work/study stress is real. Let’s chunk it: pick a 15‑minute focus block, then a 2‑minute break.",
  "Try the 1–3 priority list for today: one must‑do, two nice‑to‑do."
]

def physicalResponses : List String := [
  "Headaches/fever can make everything harder. Hydrate, rest your eyes, and notice any triggers. If symptoms persist or worsen, consider medical advice. Emotionally—what’s the biggest worry behind it?",
  "Your body is asking for care. Gentle rest, water, and light food may help. If pain or fever continues, a healthcare check is wise. How are you feeling emotionally about it?"
]

def genericResponses : List String := [
  "I hear you. Try taking 5 deep breaths: inhale for 4 counts, hold for 4, exhale for 6. If it helps, share a bit more about what happened today so we can unpack it together.",
  "Thanks for opening up. Let's take one small step: what is one thing within your control right now?",
  "You don't have to carry this alone. Would naming your top concern in one sentence help us focus?",
  "Let's slow it down together—long exhale, relaxed shoulders. What support would feel most helpful right now?"
]

def crisisResponses : List String := [
  "If you’re thinking about harming yourself or others, your safety matters most. Please contact local emergency services or a trusted person right now. If available, consider your country’s crisis hotline."
]

/-- JavaScript `toLowerCase()`, modelled as a character-wise lowering of the
string (the inputs involved are plain text, where the two agree). -/
def toLowercase (s : String) : String := String.mk (s.data.map Char.toLower)

/-- `w` is a prefix of the character list `t`. -/
def listStartsWith : List Char → List Char → Bool
  | [], _ => true
  | _ :: _, [] => false
  | a :: as, b :: bs => a == b && listStartsWith as bs

/-- `w` occurs as a contiguous run inside the character list `t`. -/
def listContains (w : List Char) : List Char → Bool
  | [] => listStartsWith w []
  | b :: bs => listStartsWith w (b :: bs) || listContains w bs

/-- `text.includes(w)` of JavaScript: `w` occurs as a contiguous substring. -/
def includes (text w : String) : Bool := listContains w.data text.data

/-- `const has = (k) => k.some(w => text.includes(w))`. -/
def hasKeyword (text : String) (k : List String) : Bool :=
  k.any (fun w => includes text w)

/-- `pick` chooses an element of `arr`; the random draw
`Math.floor(Math.random() * arr.length)` is made explicit as the
parameter `r`, reduced modulo the length. -/
def pick (r : Nat) (arr : List String) : String :=
  arr.getD (r % arr.length) ""

def crisisKeywords : List String :=
  ["suicide", "self harm", "hurt myself", "end it", "kill myself"]

def panicKeywords : List String := ["panic", "panic attack", "heart racing"]

def anxietyKeywords : List String := ["anxiety", "anxious", "worry", "worried"]

def lowMoodKeywords : List String := ["depress", "sad", "down", "empty"]

def stressKeywords : List String := ["stress", "overwhelmed", "overwhelm", "burnout"]

def sleepKeywords : List String :=
  ["sleep", "insomnia", "can't sleep", "cant sleep"]

def angerKeywords : List String := ["angry", "anger", "rage"]

def relationshipKeywords : List String :=
  ["partner", "relationship", "breakup", "friend", "family"]

def workStudyKeywords : List String :=
  ["work", "office", "deadline", "study", "exam", "college", "school"]

def physicalKeywords : List String :=
  ["fever", "headache", "pain", "sick", "ill", "nausea"]

def greetingKeywords : List String := ["hi", "hello", "hey"]

/-- Direct translation of `generateLocalResponse` (chatbot.ts lines 9-93):
lowercase the input, check the keyword buckets in source order, crisis
first (returning `crisis[0]` unconditionally), and fall through to the
generic prompts. -/
def generateLocalResponse (r : Nat) (message : String) : String :=
  let text := toLowercase message
  if hasKeyword text crisisKeywords then crisisResponses.getD 0 ""
  else if hasKeyword text panicKeywords then pick r panicResponses
  else if hasKeyword text anxietyKeywords then pick r anxietyResponses
  else if hasKeyword text lowMoodKeywords then pick r lowMood
  else if hasKeyword text stressKeywords then pick r stressResponses
  else if hasKeyword text sleepKeywords then pick r sleepResponses
  else if hasKeyword text angerKeywords then pick r angerResponses
  else if hasKeyword text relationshipKeywords then pick r relationshipResponses
  else if hasKeyword text workStudyKeywords then pick r workStudy
  else if hasKeyword text physicalKeywords then pick r physicalResponses
  else if hasKeyword text greetingKeywords then pick r greetings
  else pick r genericResponses

/-- The keyword buckets in the order the source tests them: crisis, panic,
anxiety, low-mood, stress, sleep, anger, relationship, work/study,
physical, greeting.  Each entry pairs a keyword set with its
canned-response list. -/
def orderedBuckets : List (List String × List String) := [
  (crisisKeywords, crisisResponses),
  (panicKeywords, panicResponses),
  (anxietyKeywords, anxietyResponses),
  (lowMoodKeywords, lowMood),
  (stressKeywords, stressResponses),
  (sleepKeywords, sleepResponses),
  (angerKeywords, angerResponses),
  (relationshipKeywords, relationshipResponses),
  (workStudyKeywords, workStudy),
  (physicalKeywords, physicalResponses),
  (greetingKeywords, greetings)
]

/-- First-match lookup over an ordered bucket list: the canned-response
list of the first bucket whose keyword set matches the (already
lowercased) input; the generic list when no bucket matches. -/
def bucketLookup (text : String) : List (List String × List String) → List String
  | [] => genericResponses
  | (ks, rs) :: rest => if hasKeyword text ks then rs else bucketLookup text rest

/-- The specification's description of the classification (ordered keyword
sets, first match wins, generic fallback), to be compared with
`generateLocalResponse`. -/
def firstMatchingBucket (text : String) : List String :=
  bucketLookup text orderedBuckets

theorem pick_mem (r : Nat) (arr : List String) (h : arr ≠ []) : pick r arr ∈ arr := by
  have hl : 0 < arr.length := List.length_pos.mpr h
  have hlt : r % arr.length < arr.length := Nat.mod_lt _ hl
  unfold pick
  rw [List.getD_eq_getElem arr "" hlt]
  exact List.getElem_mem hlt

set_option maxHeartbeats 2000000 in
theorem response_mem_firstBucket (r : Nat) (m : String) :
    generateLocalResponse r m ∈ firstMatchingBucket (toLowercase m) := by
  unfold generateLocalResponse firstMatchingBucket orderedBuckets
  dsimp only
  split_ifs with h1 h2 h3 h4 h5 h6 h7 h8 h9 h10 h11
  · simp only [bucketLookup, if_pos h1]
    unfold crisisResponses
    rw [List.getD_cons_zero]
    exact List.mem_cons_self _ _
  · simp only [bucketLookup, if_neg h1, if_pos h2]
    exact pick_mem r _ (by decide)
  · simp only [bucketLookup, if_neg h1, if_neg h2, if_pos h3]
    exact pick_mem r _ (by decide)
  · simp only [bucketLookup, if_neg h1, if_neg h2, if_neg h3, if_pos h4]
    exact pick_mem r _ (by decide)
  · simp only [bucketLookup, if_neg h1, if_neg h2, if_neg h3, if_neg h4, if_pos h5]
    exact pick_mem r _ (by decide)
  · simp only [bucketLookup, if_neg h1, if_neg h2, if_neg h3, if_neg h4, if_neg h5,
      if_pos h6]
    exact pick_mem r _ (by decide)
  · simp only [bucketLookup, if_neg h1, if_neg h2, if_neg h3, if_neg h4, if_neg h5,
      if_neg h6, if_pos h7]
    exact pick_mem r _ (by decide)
  · simp only [bucketLookup, if_neg h1, if_neg h2, if_neg h3, if_neg h4, if_neg h5,
      if_neg h6, if_neg h7, if_pos h8]
    exact pick_mem r _ (by decide)
  · simp only [bucketLookup, if_neg h1, if_neg h2, if_neg h3, if_neg h4, if_neg h5,
      if_neg h6, if_neg h7, if_neg h8, if_pos h9]
    exact pick_mem r _ (by decide)
  · simp only [bucketLookup, if_neg h1, if_neg h2, if_neg h3, if_neg h4, if_neg h5,
      if_neg h6, if_neg h7, if_neg h8, if_neg h9, if_pos h10]
    exact pick_mem r _ (by decide)
  · simp only [bucketLookup, if_neg h1, if_neg h2, if_neg h3, if_neg h4, if_neg h5,
      if_neg h6, if_neg h7, if_neg h8, if_neg h9, if_neg h10, if_pos h11]
    exact pick_mem r _ (by decide)
  · simp only [bucketLookup, if_neg h1, if_neg h2, if_neg h3, if_neg h4, if_neg h5,
      if_neg h6, if_neg h7, if_neg h8, if_neg h9, if_neg h10, if_neg h11]
    exact pick_mem r _ (by decide)

/-- Claim C1: if the lowercased input contains any crisis keyword
("suicide", "self harm", "hurt myself", "end it", "kill myself"), then
`generateLocalResponse` returns the single fixed crisis safety message,
regardless of which other topic keywords the message contains and of the
random draw. -/
theorem crisis_short_circuits (r : Nat) (message : String)
    (h : ∃ k ∈ crisisKeywords, includes (toLowercase message) k = true) :
    generateLocalResponse r message = crisisResponses.getD 0 "" := by
  have hk : hasKeyword (toLowercase message) crisisKeywords = true := by
    rcases h with ⟨k, hk1, hk2⟩
    exact List.any_eq_true.mpr ⟨k, hk1, hk2⟩
  unfold generateLocalResponse
  simp only [hk, if_true]

/-- Witness for C1 at a concrete input that also matches the anxiety and
work buckets. -/
theorem crisis_short_circuits_witness :
    generateLocalResponse 3 "work anxiety makes me want to end it" =
      crisisResponses.getD 0 "" :=
  crisis_short_circuits 3 "work anxiety makes me want to end it"
    ⟨"end it", by decide, by rfl⟩

/-- Claim C2: the response always belongs to the canned list of the first
matching bucket in the fixed source order (generic when none matches), and
the classification depends only on the lowercased input (so it is a pure
function of the text, with no external call). -/
theorem response_in_first_matching_bucket (r : Nat) (m1 m2 : String)
    (h : toLowercase m1 = toLowercase m2) :
    generateLocalResponse r m1 ∈ firstMatchingBucket (toLowercase m1) ∧
    generateLocalResponse r m1 = generateLocalResponse r m2 := by
  refine ⟨response_mem_firstBucket r m1, ?_⟩
  unfold generateLocalResponse
  rw [h]

/-- Witness for C2: the greeting "Hello" classifies into the greeting
bucket, and lowercase-equal inputs get the same response. -/
theorem response_in_first_matching_bucket_witness :
    generateLocalResponse 0 "Hello" ∈ firstMatchingBucket (toLowercase "Hello") ∧
    generateLocalResponse 0 "Hello" = generateLocalResponse 0 "HELLO" :=
  response_in_first_matching_bucket 0 "Hello" "HELLO" (by rfl)

/- ## Chat message log and the /chatbot routes (backend/src/routes/chatbot.ts) -/

/-- One row of the ChatMessage collection: owner, session id, free-text
content, turn type ("user" or "ai") and timestamp. -/
structure ChatMessage where
  user : Nat
  sessionId : String
  message : String
  messageType : String
  createdAt : Nat
deriving DecidableEq, Repr

/-- Body of a POST /chatbot/send request: `message`, and an optional
`sessionId` string. -/
structure SendRequest where
  message : String
  sessionId : Option String
deriving DecidableEq, Repr

inductive SendOutcome where
  /-- HTTP 400 with field-level validation messages. -/
  | badRequest (errors : List String)
  /-- HTTP 200 with the saved ai message and the session id. -/
  | ok (aiMessage : ChatMessage) (sessionId : String)
deriving DecidableEq, Repr

/-- JavaScript string `trim`: strip leading and trailing whitespace. -/
def trimString (s : String) : String :=
  String.mk (((s.data.dropWhile Char.isWhitespace).reverse.dropWhile
    Char.isWhitespace).reverse)

/-- POST /chatbot/send (chatbot.ts lines 96-146).  The express-validator
chain `body('message').trim().notEmpty()` trims the message in place (a
sanitizer) and rejects with 400 when the trimmed message is empty;
otherwise the handler keeps the provided sessionId when it is truthy
(JavaScript `||`, under which the empty string counts as absent), saves
the user's message, generates the local reply, saves it, and returns it
together with the session id.  `now` stands for `Date.now()` and `r` for
the random draw inside `generateLocalResponse`; the database is the list
of saved rows, in insertion order. -/
def handleSend (uid : Nat) (req : SendRequest) (now r : Nat)
    (db : List ChatMessage) : SendOutcome × List ChatMessage :=
  let message := trimString req.message
  if message = "" then
    (.badRequest ["Message cannot be empty."], db)
  else
    let sessionId :=
      match req.sessionId with
      | some s => if s = "" then "session_" ++ toString now else s
      | none => "session_" ++ toString now
    let userMessage : ChatMessage :=
      { user := uid, sessionId := sessionId, message := message,
        messageType := "user", createdAt := now }
    let aiResponse := generateLocalResponse r message
    let aiMessage : ChatMessage :=
      { user := uid, sessionId := sessionId, message := aiResponse,
        messageType := "ai", createdAt := now }
    (.ok aiMessage sessionId, db ++ [userMessage, aiMessage])

/-- GET /chatbot/history (chatbot.ts lines 149-174): keep the rows of the
authenticated user (and of the requested session when one is given), sort
newest first, paginate (MongoDB applies skip before limit), and return
the page in chronological order. -/
def getHistory (uid : Nat) (sessionId : Option String) (page limit : Nat)
    (db : List ChatMessage) : List ChatMessage :=
  let rows := db.filter (fun m =>
    m.user == uid &&
      (match sessionId with
       | some s => m.sessionId == s
       | none => true))
  let sorted := rows.insertionSort (fun a b => b.createdAt ≤ a.createdAt)
  ((sorted.drop ((page - 1) * limit)).take limit).reverse

/-- One element of the GET /chatbot/sessions response: a session id with
the last message and timestamp of its group. -/
structure SessionSummary where
  sessionId : String
  lastMessage : String
  lastTimestamp : Nat
deriving DecidableEq, Repr

/-- GET /chatbot/sessions (chatbot.ts lines 177-189): match the
authenticated user's rows, group them by sessionId keeping each group's
last message and timestamp, and sort by last timestamp, newest first. -/
def getSessions (uid : Nat) (db : List ChatMessage) : List SessionSummary :=
  let ms := db.filter (fun m => m.user == uid)
  let ids := (ms.map (fun m => m.sessionId)).dedup
  let groups := ids.map (fun sid =>
    let g := ms.filter (fun m => m.sessionId == sid)
    { sessionId := sid,
      lastMessage := ((g.getLast?).map (fun m => m.message)).getD "",
      lastTimestamp := ((g.getLast?).map (fun m => m.createdAt)).getD 0 : SessionSummary })
  groups.insertionSort (fun a b => b.lastTimestamp ≤ a.lastTimestamp)

/-- Claim C7: a send request whose message is empty after trimming (empty
or whitespace-only) gets a 400 with the field-level message and leaves
the log unchanged; a request whose trimmed message is non-empty is not
rejected by this validation. -/
theorem send_validation (uid : Nat) (req : SendRequest) (now r : Nat)
    (db : List ChatMessage) :
    (trimString req.message = "" →
      handleSend uid req now r db =
        (.badRequest ["Message cannot be empty."], db)) ∧
    (trimString req.message ≠ "" →
      ∃ ai sid, (handleSend uid req now r db).1 = .ok ai sid) := by
  constructor
  · intro h
    unfold handleSend
    simp [h]
  · intro h
    unfold handleSend
    simp only [h, if_neg, if_false]
    exact ⟨_, _, rfl⟩

/-- Witness for C7: a whitespace-only message is rejected with the log
unchanged, and a non-empty message goes through. -/
theorem send_validation_witness :
    (handleSend 1 ⟨"   ", none⟩ 0 0 [] =
      (.badRequest ["Message cannot be empty."], [])) ∧
    ∃ ai sid, (handleSend 1 ⟨"hi", none⟩ 0 0 []).1 = .ok ai sid :=
  ⟨(send_validation 1 ⟨"   ", none⟩ 0 0 []).1 (by rfl),
   (send_validation 1 ⟨"hi", none⟩ 0 0 []).2 (by decide)⟩

/-- Claim C8 as frozen fails on the code at message " hi " with provided
sessionId "": the saved user row holds the trimmed message "hi", not the
request message " hi " (the express-validator `trim` sanitizer rewrites
the body), and both rows carry the generated sessionId "session_7", not
the provided "" (JavaScript `||` treats the empty string as falsy). -/
theorem send_appends_counterexample :
    (handleSend 1 ⟨" hi ", some ""⟩ 7 0 []).2 =
      [⟨1, "session_7", "hi", "user", 7⟩,
       ⟨1, "session_7", generateLocalResponse 0 "hi", "ai", 7⟩] ∧
    ("hi" : String) ≠ " hi " ∧ ("session_7" : String) ≠ "" := by
  refine ⟨by rfl, by decide, by decide⟩

/-- Claim C8 (amended): every successful send appends exactly two rows to
the log — a user row holding the trimmed request message and an ai row
holding the generated response — both carrying the returned sessionId,
which equals the request's sessionId whenever a non-empty one was
provided; the rows already in the log are never modified or deleted
(append-only). -/
theorem send_appends_two_rows (uid : Nat) (req : SendRequest) (now r : Nat)
    (db : List ChatMessage) (ai : ChatMessage) (sid : String)
    (h : (handleSend uid req now r db).1 = .ok ai sid) :
    (handleSend uid req now r db).2 =
      db ++ [⟨uid, sid, trimString req.message, "user", now⟩,
             ⟨uid, sid, generateLocalResponse r (trimString req.message), "ai", now⟩] ∧
    ai = ⟨uid, sid, generateLocalResponse r (trimString req.message), "ai", now⟩ ∧
    (∀ s0, req.sessionId = some s0 → s0 ≠ "" → sid = s0) := by
  unfold handleSend at h ⊢
  by_cases hm : trimString req.message = ""
  · simp [hm] at h
  · simp only [hm, if_neg, if_false] at h ⊢
    obtain ⟨hai, hsid⟩ := by simpa using h
    subst hsid
    subst hai
    refine ⟨rfl, rfl, ?_⟩
    intro s0 hs0 hne
    simp only [hs0]
    simp [hne]

/-- Witness for C8 (amended) at a concrete successful send with a
non-empty provided sessionId. -/
theorem send_appends_two_rows_witness :
    ((handleSend 1 ⟨" hello ", some "abc"⟩ 3 0 []).2 =
      [] ++ [⟨1, "abc", trimString " hello ", "user", 3⟩,
             ⟨1, "abc", generateLocalResponse 0 (trimString " hello "), "ai", 3⟩] ∧
    (⟨1, "abc", generateLocalResponse 0 (trimString " hello "), "ai", 3⟩ : ChatMessage) =
      ⟨1, "abc", generateLocalResponse 0 (trimString " hello "), "ai", 3⟩ ∧
    (∀ s0, (some "abc" : Option String) = some s0 → s0 ≠ "" → "abc" = s0)) :=
  send_appends_two_rows 1 ⟨" hello ", some "abc"⟩ 3 0 []
    ⟨1, "abc", generateLocalResponse 0 (trimString " hello "), "ai", 3⟩ "abc" (by rfl)

theorem mem_getHistory_user (uid : Nat) (sid : Option String) (page limit : Nat)
    (db : List ChatMessage) (m : ChatMessage)
    (h : m ∈ getHistory uid sid page limit db) : m.user = uid := by
  unfold getHistory at h
  rw [List.mem_reverse] at h
  have h2 := List.mem_of_mem_drop (List.mem_of_mem_take h)
  rw [List.mem_insertionSort] at h2
  have h3 := (List.mem_filter.mp h2).2
  simp only [Bool.and_eq_true, beq_iff_eq] at h3
  exact h3.1

theorem mem_getSessions_user (uid : Nat) (db : List ChatMessage)
    (s : SessionSummary) (h : s ∈ getSessions uid db) :
    ∃ m ∈ db, m.user = uid ∧ m.sessionId = s.sessionId := by
  unfold getSessions at h
  rw [List.mem_insertionSort, List.mem_map] at h
  obtain ⟨sid, hsid, hs⟩ := h
  rw [List.mem_dedup, List.mem_map] at hsid
  obtain ⟨m, hm, hmsid⟩ := hsid
  have hmf := List.mem_filter.mp hm
  refine ⟨m, hmf.1, by simpa using hmf.2, ?_⟩
  rw [← hs]
  exact hmsid

theorem getHistory_only_own_rows (uid : Nat) (sid : Option String)
    (page limit : Nat) (db1 db2 : List ChatMessage)
    (h : db1.filter (fun m => m.user == uid) = db2.filter (fun m => m.user == uid)) :
    getHistory uid sid page limit db1 = getHistory uid sid page limit db2 := by
  have key : ∀ db : List ChatMessage,
      db.filter (fun m =>
        m.user == uid &&
          (match sid with
           | some s => m.sessionId == s
           | none => true)) =
      (db.filter (fun m => m.user == uid)).filter (fun m =>
        (match sid with
         | some s => m.sessionId == s
         | none => true)) := by
    intro db
    rw [List.filter_filter]
    apply List.filter_congr
    intro a _
    exact Bool.and_comm _ _
  unfold getHistory
  rw [key db1, key db2, h]

theorem getSessions_only_own_rows (uid : Nat) (db1 db2 : List ChatMessage)
    (h : db1.filter (fun m => m.user == uid) = db2.filter (fun m => m.user == uid)) :
    getSessions uid db1 = getSessions uid db2 := by
  unfold getSessions
  rw [h]

theorem handleSend_reply_ignores_db (uid : Nat) (req : SendRequest) (now r : Nat)
    (db1 db2 : List ChatMessage) :
    (handleSend uid req now r db1).1 = (handleSend uid req now r db2).1 := by
  unfold handleSend
  by_cases hm : trimString req.message = "" <;> simp [hm]

/-- Claim C10: chat reads are scoped to the authenticated user: every
history row belongs to the requester, distinct users' histories are
disjoint, every returned session comes from the requester's own rows, and
both reads — as well as the generated chatbot reply — are functions of
the requester's own rows only, so one user's messages never influence
another user's response. -/
theorem chat_reads_user_scoped (uid u1 u2 : Nat) (sid sid2 : Option String)
    (page limit page2 limit2 : Nat) (db db1 db2 : List ChatMessage)
    (req : SendRequest) (now r : Nat) (hne : u1 ≠ u2)
    (hf : db1.filter (fun m => m.user == uid) = db2.filter (fun m => m.user == uid)) :
    (∀ m ∈ getHistory uid sid page limit db, m.user = uid) ∧
    (∀ m, m ∈ getHistory u1 sid page limit db →
      m ∉ getHistory u2 sid2 page2 limit2 db) ∧
    (∀ s ∈ getSessions uid db, ∃ m ∈ db, m.user = uid ∧ m.sessionId = s.sessionId) ∧
    getHistory uid sid page limit db1 = getHistory uid sid page limit db2 ∧
    getSessions uid db1 = getSessions uid db2 ∧
    (handleSend uid req now r db1).1 = (handleSend uid req now r db2).1 := by
  refine ⟨fun m hm => mem_getHistory_user uid sid page limit db m hm,
    fun m hm1 hm2 => ?_,
    fun s hs => mem_getSessions_user uid db s hs,
    getHistory_only_own_rows uid sid page limit db1 db2 hf,
    getSessions_only_own_rows uid db1 db2 hf,
    handleSend_reply_ignores_db uid req now r db1 db2⟩
  exact hne ((mem_getHistory_user u1 sid page limit db m hm1).symm.trans
    (mem_getHistory_user u2 sid2 page2 limit2 db m hm2))

/-- Witness for C10 on a two-user, two-row log. -/
theorem chat_reads_user_scoped_witness :
    (∀ m ∈ getHistory 1 none 1 50 [⟨1, "s1", "hi", "user", 0⟩, ⟨2, "s2", "hey", "user", 1⟩],
      m.user = 1) ∧
    (∀ m, m ∈ getHistory 1 none 1 50 [⟨1, "s1", "hi", "user", 0⟩, ⟨2, "s2", "hey", "user", 1⟩] →
      m ∉ getHistory 2 none 1 50 [⟨1, "s1", "hi", "user", 0⟩, ⟨2, "s2", "hey", "user", 1⟩]) ∧
    (∀ s ∈ getSessions 1 [⟨1, "s1", "hi", "user", 0⟩, ⟨2, "s2", "hey", "user", 1⟩],
      ∃ m ∈ [⟨1, "s1", "hi", "user", 0⟩, (⟨2, "s2", "hey", "user", 1⟩ : ChatMessage)],
        m.user = 1 ∧ m.sessionId = s.sessionId) ∧
    getHistory 1 none 1 50 [⟨1, "s1", "hi", "user", 0⟩] =
      getHistory 1 none 1 50 [⟨1, "s1", "hi", "user", 0⟩, ⟨2, "s2", "hey", "user", 1⟩] ∧
    getSessions 1 [⟨1, "s1", "hi", "user", 0⟩] =
      getSessions 1 [⟨1, "s1", "hi", "user", 0⟩, ⟨2, "s2", "hey", "user", 1⟩] ∧
    (handleSend 1 ⟨"hello", none⟩ 9 0 [⟨1, "s1", "hi", "user", 0⟩]).1 =
      (handleSend 1 ⟨"hello", none⟩ 9 0 [⟨1, "s1", "hi", "user", 0⟩, ⟨2, "s2", "hey", "user", 1⟩]).1 :=
  chat_reads_user_scoped 1 1 2 none none 1 50 1 50
    [⟨1, "s1", "hi", "user", 0⟩, ⟨2, "s2", "hey", "user", 1⟩]
    [⟨1, "s1", "hi", "user", 0⟩]
    [⟨1, "s1", "hi", "user", 0⟩, ⟨2, "s2", "hey", "user", 1⟩]
    ⟨"hello", none⟩ 9 0 (by decide) (by decide)

/- ## Appointments.  The appointment endpoints live in backend routes that
are not part of the source tree; only their frontend callers are.  The
definitions marked "Modelled from the spec" reconstruct them from the
specification's description. -/

inductive ApptStatus where
  | pending
  | confirmed
  | completed
  | cancelled
deriving DecidableEq, Repr

/-- Per-day window of a therapist's weekly schedule, as edited in
TherapistAvailability.tsx: start and end of the enabled window in minutes
since midnight, and the enabled flag. -/
structure DayWindow where
  startMin : Nat
  endMin : Nat
  isAvailable : Bool
deriving DecidableEq, Repr

/-- An existing appointment interval of the therapist on the requested
date, with its status. -/
structure BookedInterval where
  startMin : Nat
  endMin : Nat
  status : ApptStatus
deriving DecidableEq, Repr

/-- Two half-open minute intervals [s1, e1) and [s2, e2) overlap. -/
def intervalsOverlap (s1 e1 s2 e2 : Nat) : Bool := s1 < e2 && s2 < e1

/-- Modelled from the spec: the backend computation behind GET
/appointments/available-slots/:therapistId is missing from the source
tree (AppointmentBooking.tsx only fetches its result).  Spec section 4.1:
enumerate fixed-duration slots across the day's enabled window and
exclude slots overlapping existing confirmed or pending appointments.
Slots are pairs (start, end) in minutes. -/
def availableSlots (day : DayWindow) (duration : Nat)
    (booked : List BookedInterval) : List (Nat × Nat) :=
  if !day.isAvailable || duration == 0 then []
  else
    let count := (day.endMin - day.startMin) / duration
    let slots := (List.range count).map (fun i =>
      (day.startMin + i * duration, day.startMin + i * duration + duration))
    slots.filter (fun slot =>
      !(booked.any (fun b =>
        (b.status == .pending || b.status == .confirmed) &&
          intervalsOverlap slot.1 slot.2 b.startMin b.endMin)))

/-- An appointment document: parties, date, start minute, lifecycle
status, and the optional post-hoc rating/review. -/
structure Appointment where
  user : Nat
  therapist : Nat
  date : Nat
  startMin : Nat
  status : ApptStatus
  rating : Option Nat
  review : Option String
deriving DecidableEq, Repr

/-- Body of a POST /appointments/book request (therapist, date, slot,
booking user). -/
structure BookingRequest where
  user : Nat
  therapist : Nat
  date : Nat
  startMin : Nat
deriving DecidableEq, Repr

inductive BookOutcome where
  | booked
  | conflict
deriving DecidableEq, Repr

/-- The same therapist/date/slot already holds a live (pending or
confirmed) appointment. -/
def slotTaken (db : List Appointment) (t d s : Nat) : Bool :=
  db.any (fun a => a.therapist == t && a.date == d && a.startMin == s &&
    (a.status == .pending || a.status == .confirmed))

/-- Modelled from the spec: the POST /appointments/book handler is missing
from the source tree (only its frontend caller is).  Spec sections 4.1
and 5: the write performs a uniqueness check at the data layer — a live
appointment on the same therapist, date and slot makes the request fail
with a conflict error, otherwise a pending appointment is inserted; the
check and the insert form one atomic write. -/
def bookAppointment (db : List Appointment) (req : BookingRequest) :
    BookOutcome × List Appointment :=
  if slotTaken db req.therapist req.date req.startMin then (.conflict, db)
  else (.booked,
    db ++ [⟨req.user, req.therapist, req.date, req.startMin, .pending, none, none⟩])

/-- The allowed status transitions (spec section 4.3): pending→confirmed,
pending→cancelled, confirmed→cancelled, confirmed→completed. -/
def allowedTransition : ApptStatus → ApptStatus → Bool
  | .pending, .confirmed => true
  | .pending, .cancelled => true
  | .confirmed, .cancelled => true
  | .confirmed, .completed => true
  | _, _ => false

/-- Modelled from the spec: the PUT /therapist/appointments/:id/status
handler is missing from the source tree (only the dashboard caller
`handleStatusUpdate` is).  Spec section 4.3: a status update is applied
only along an allowed transition and changes nothing but the status. -/
def updateStatus (a : Appointment) (s : ApptStatus) : Option Appointment :=
  if allowedTransition a.status s then some { a with status := s } else none

/-- From TherapistDashboard (src/unnamed/part_005, lines 299-316 and
363-389): the Update Status button is rendered only for pending
appointments, and the dialog offers exactly Confirm and Cancel. -/
def therapistStatusChoices (a : Appointment) : List ApptStatus :=
  if a.status == .pending then [.confirmed, .cancelled] else []

/-- Modelled from the spec: the POST /user/appointments/:id/review handler
is missing from the source tree (only `handleSubmitRating` calling it
is).  Spec sections 3 and 8: a review can be submitted only once, only
for a completed appointment; it sets the rating and review fields and
nothing else. -/
def reviewAppointment (a : Appointment) (rating : Nat) (review : String) :
    Option Appointment :=
  if a.status == .completed && a.rating == none then
    some { a with rating := some rating, review := some review }
  else none

/-- From UserDashboard (line 304): the Rate button is shown only for a
completed appointment that has no rating yet. -/
def showRateButton (a : Appointment) : Bool :=
  a.status == .completed && a.rating == none

/-- Claim C3: every computed slot has the fixed duration, lies inside the
day's enabled availability window, and overlaps no existing confirmed or
pending appointment of the therapist on that date. -/
theorem availableSlots_sound (day : DayWindow) (duration : Nat)
    (booked : List BookedInterval) (slot : Nat × Nat)
    (h : slot ∈ availableSlots day duration booked) :
    day.isAvailable = true ∧
    day.startMin ≤ slot.1 ∧ slot.2 ≤ day.endMin ∧ slot.2 = slot.1 + duration ∧
    ∀ b ∈ booked, (b.status = .pending ∨ b.status = .confirmed) →
      intervalsOverlap slot.1 slot.2 b.startMin b.endMin = false := by
  unfold availableSlots at h
  by_cases hg : (!day.isAvailable || duration == 0) = true
  · rw [if_pos hg] at h
    exact absurd h (List.not_mem_nil slot)
  · rw [if_neg hg] at h
    have hgf : (!day.isAvailable || duration == 0) = false := Bool.of_not_eq_true hg
    obtain ⟨h1, h2⟩ := Bool.or_eq_false_iff.mp hgf
    have hav : day.isAvailable = true := by simpa using h1
    obtain ⟨hmem, hpred⟩ := List.mem_filter.mp h
    obtain ⟨i, hi, hslot⟩ := List.mem_map.mp hmem
    rw [List.mem_range] at hi
    refine ⟨hav, ?_, ?_, ?_, ?_⟩
    · rw [← hslot]
      exact Nat.le_add_right _ _
    · rw [← hslot]
      have hstep : (i + 1) * duration ≤
          ((day.endMin - day.startMin) / duration) * duration :=
        Nat.mul_le_mul_right duration hi
      have hfloor : ((day.endMin - day.startMin) / duration) * duration ≤
          day.endMin - day.startMin := Nat.div_mul_le_self _ _
      have hle : day.startMin ≤ day.endMin := by
        by_contra hlt
        have h0 : day.endMin - day.startMin = 0 :=
          Nat.sub_eq_zero_of_le (Nat.le_of_lt (Nat.lt_of_not_le hlt))
        rw [h0, Nat.zero_div] at hi
        exact Nat.not_lt_zero i hi
      calc day.startMin + i * duration + duration
          = day.startMin + (i + 1) * duration := by ring
        _ ≤ day.startMin + (day.endMin - day.startMin) :=
            Nat.add_le_add_left (le_trans hstep hfloor) _
        _ = day.endMin := Nat.add_sub_cancel' hle
    · rw [← hslot]
    · intro b hb hstat
      have hall : ∀ x ∈ booked,
          x.status = ApptStatus.pending ∨ x.status = ApptStatus.confirmed →
            intervalsOverlap slot.1 slot.2 x.startMin x.endMin = false := by
        simpa using hpred
      exact hall b hb hstat

/-- Witness for C3 on a 09:00-17:00 window with one confirmed booking at
10:00-11:00 and the 09:00-10:00 slot. -/
theorem availableSlots_sound_witness :
    ((540, 600) ∈ availableSlots ⟨540, 1020, true⟩ 60 [⟨600, 660, .confirmed⟩]) ∧
    ((⟨540, 1020, true⟩ : DayWindow).isAvailable = true ∧
     (⟨540, 1020, true⟩ : DayWindow).startMin ≤ 540 ∧
     600 ≤ (⟨540, 1020, true⟩ : DayWindow).endMin ∧ 600 = 540 + 60 ∧
     ∀ b ∈ [(⟨600, 660, .confirmed⟩ : BookedInterval)],
       (b.status = .pending ∨ b.status = .confirmed) →
         intervalsOverlap 540 600 b.startMin b.endMin = false) :=
  ⟨by decide,
   availableSlots_sound ⟨540, 1020, true⟩ 60 [⟨600, 660, .confirmed⟩] (540, 600)
     (by decide)⟩

/-- Claim C4: two booking requests for the same therapist, date and slot
against a store where the slot is free: whichever is serialized first by
the atomic uniqueness-checked write succeeds, and the other receives a
conflict error — exactly one success in either order. -/
theorem double_booking_conflict (db : List Appointment) (r1 r2 : BookingRequest)
    (hsame : r1.therapist = r2.therapist ∧ r1.date = r2.date ∧ r1.startMin = r2.startMin)
    (hfree : slotTaken db r1.therapist r1.date r1.startMin = false) :
    (bookAppointment db r1).1 = .booked ∧
    (bookAppointment (bookAppointment db r1).2 r2).1 = .conflict := by
  obtain ⟨ht, hd, hs⟩ := hsame
  constructor
  · unfold bookAppointment
    rw [if_neg (by simp [hfree])]
  · have hdb : (bookAppointment db r1).2 =
        db ++ [⟨r1.user, r1.therapist, r1.date, r1.startMin, .pending, none, none⟩] := by
      unfold bookAppointment
      rw [if_neg (by simp [hfree])]
    have htaken : slotTaken
        (db ++ [⟨r1.user, r1.therapist, r1.date, r1.startMin, .pending, none, none⟩])
        r2.therapist r2.date r2.startMin = true := by
      unfold slotTaken
      rw [List.any_append]
      simp [← ht, ← hd, ← hs]
    rw [hdb]
    unfold bookAppointment
    rw [if_pos htaken]

/-- Witness for C4: two users book the same free slot; the first write
succeeds, the second conflicts. -/
theorem double_booking_conflict_witness :
    (bookAppointment [] ⟨1, 2, 3, 540⟩).1 = .booked ∧
    (bookAppointment (bookAppointment [] ⟨1, 2, 3, 540⟩).2 ⟨4, 2, 3, 540⟩).1 = .conflict :=
  double_booking_conflict [] ⟨1, 2, 3, 540⟩ ⟨4, 2, 3, 540⟩
    ⟨rfl, rfl, rfl⟩ (by decide)

/-- Claim C5: a review submission succeeds exactly when the appointment is
completed and unrated (the dashboard shows the Rate button in exactly
those cases); the success sets only the rating and review fields; a
second submission for the same appointment fails; and once completed an
appointment admits no status update at all. -/
theorem review_only_once (a : Appointment) (ra : Nat) (rv : String) :
    (∀ a', reviewAppointment a ra rv = some a' →
      a.status = .completed ∧ a.rating = none ∧
      a'.rating = some ra ∧ a'.review = some rv ∧
      a'.user = a.user ∧ a'.therapist = a.therapist ∧ a'.date = a.date ∧
      a'.startMin = a.startMin ∧ a'.status = a.status ∧
      ∀ ra2 rv2, reviewAppointment a' ra2 rv2 = none) ∧
    ((reviewAppointment a ra rv).isSome = showRateButton a) ∧
    (a.status = .completed → ∀ s, updateStatus a s = none) := by
  refine ⟨?_, ?_, ?_⟩
  · intro a' h
    unfold reviewAppointment at h
    by_cases hc : (a.status == ApptStatus.completed && a.rating == none) = true
    · rw [if_pos hc] at h
      rw [Bool.and_eq_true] at hc
      obtain ⟨hst, hrat⟩ := hc
      injection h with h
      subst h
      refine ⟨by simpa using hst, by simpa using hrat, rfl, rfl, rfl, rfl, rfl, rfl, rfl, ?_⟩
      intro ra2 rv2
      unfold reviewAppointment
      rw [if_neg]
      simp
    · rw [if_neg hc] at h
      exact absurd h (by simp)
  · unfold reviewAppointment showRateButton
    by_cases hc : (a.status == ApptStatus.completed && a.rating == none) = true
    · rw [if_pos hc, hc]
      rfl
    · rw [if_neg hc]
      simp [Bool.of_not_eq_true hc]
  · intro hdone s
    unfold updateStatus
    rw [if_neg]
    rw [hdone]
    cases s <;> simp [allowedTransition]

/-- Witness for C5 at a completed, unrated appointment: the first review
succeeds and fixes the fields, a second submission on the reviewed
appointment fails, the Rate-button guard agrees, and the completed
appointment admits no status update. -/
theorem review_only_once_witness :
    (reviewAppointment ⟨1, 2, 3, 540, .completed, some 5, some "great"⟩ 4 "again" = none) ∧
    ((reviewAppointment ⟨1, 2, 3, 540, .completed, none, none⟩ 5 "great").isSome =
      showRateButton ⟨1, 2, 3, 540, .completed, none, none⟩) ∧
    (updateStatus ⟨1, 2, 3, 540, .completed, none, none⟩ .cancelled = none) :=
  ⟨((review_only_once ⟨1, 2, 3, 540, .completed, none, none⟩ 5 "great").1
      ⟨1, 2, 3, 540, .completed, some 5, some "great"⟩ rfl).2.2.2.2.2.2.2.2.2 4 "again",
   (review_only_once ⟨1, 2, 3, 540, .completed, none, none⟩ 5 "great").2.1,
   (review_only_once ⟨1, 2, 3, 540, .completed, none, none⟩ 5 "great").2.2 rfl .cancelled⟩

/-- Claim C6: every status change follows the allowed transition relation
(pending→confirmed, pending→cancelled, confirmed→cancelled,
confirmed→completed); the dashboard only ever requests allowed
transitions (confirm/cancel on pending appointments); and no operation —
status update or review — moves an appointment out of the completed or
cancelled states. -/
theorem status_transitions_respected (a : Appointment) (s : ApptStatus) :
    (∀ a', updateStatus a s = some a' → allowedTransition a.status s = true ∧
      a'.status = s) ∧
    (∀ s2, s2 ∈ therapistStatusChoices a → allowedTransition a.status s2 = true) ∧
    ((a.status = .completed ∨ a.status = .cancelled) →
      (updateStatus a s = none ∧
       ∀ ra rv a', reviewAppointment a ra rv = some a' → a'.status = a.status)) := by
  refine ⟨?_, ?_, ?_⟩
  · intro a' h
    unfold updateStatus at h
    by_cases hc : allowedTransition a.status s = true
    · rw [if_pos hc] at h
      injection h with h
      subst h
      exact ⟨hc, rfl⟩
    · rw [if_neg hc] at h
      exact absurd h (by simp)
  · intro s2 hs2
    unfold therapistStatusChoices at hs2
    by_cases hp : (a.status == ApptStatus.pending) = true
    · rw [if_pos hp] at hs2
      have : a.status = .pending := by simpa using hp
      rw [this]
      rcases List.mem_pair.mp hs2 with h | h <;> subst h <;> rfl
    · rw [if_neg hp] at hs2
      exact absurd hs2 (List.not_mem_nil s2)
  · intro hterm
    constructor
    · unfold updateStatus
      rw [if_neg]
      rcases hterm with h | h <;> rw [h] <;> cases s <;> simp [allowedTransition]
    · intro ra rv a' h
      unfold reviewAppointment at h
      by_cases hc : (a.status == ApptStatus.completed && a.rating == none) = true
      · rw [if_pos hc] at h
        injection h with h
        subst h
        rfl
      · rw [if_neg hc] at h
        exact absurd h (by simp)

/-- Witness for C6: completing a confirmed appointment is along an allowed
transition, the dashboard's Confirm choice on a pending appointment is
allowed, a cancelled appointment admits no update, and a review leaves a
completed appointment's status alone. -/
theorem status_transitions_respected_witness :
    (allowedTransition ApptStatus.confirmed .completed = true ∧
      ApptStatus.completed = ApptStatus.completed) ∧
    (allowedTransition ApptStatus.pending .confirmed = true) ∧
    (updateStatus ⟨1, 2, 3, 540, .cancelled, none, none⟩ .confirmed = none) ∧
    (ApptStatus.completed = ApptStatus.completed) :=
  ⟨(status_transitions_respected ⟨1, 2, 3, 540, .confirmed, none, none⟩ .completed).1
      ⟨1, 2, 3, 540, .completed, none, none⟩ rfl,
   (status_transitions_respected ⟨1, 2, 3, 540, .pending, none, none⟩ .completed).2.1
      .confirmed (by decide),
   ((status_transitions_respected ⟨1, 2, 3, 540, .cancelled, none, none⟩ .confirmed).2.2
      (Or.inr rfl)).1,
   ((status_transitions_respected ⟨1, 2, 3, 540, .completed, none, none⟩ .confirmed).2.2
      (Or.inl rfl)).2 5 "nice" ⟨1, 2, 3, 540, .completed, some 5, some "nice"⟩ rfl⟩

/- ## Role-based route guards -/

inductive Role where
  | user
  | therapist
  | admin
deriving DecidableEq, Repr

/-- Modelled from the spec: the JWT auth middleware (requireAdmin and
friends, imported by the routes) is missing from the source tree.  Spec
sections 6 and 8: a role-based guard runs before an admin-only handler
and rejects a non-admin token with 403/401, so the handler never runs. -/
def adminGuard {σ : Type} (role : Role) (handler : σ → Nat × σ) (st : σ) :
    Nat × σ :=
  if role = Role.admin then handler st else (403, st)

/-- Claim C9: a request bearing a user-role token to an admin-only
endpoint is answered with 403 or 401 and performs no state change,
whatever the guarded handler would have done. -/
theorem admin_guard_rejects_user {σ : Type} (handler : σ → Nat × σ) (st : σ) :
    ((adminGuard Role.user handler st).1 = 403 ∨
     (adminGuard Role.user handler st).1 = 401) ∧
    (adminGuard Role.user handler st).2 = st := by
  unfold adminGuard
  refine ⟨Or.inl ?_, ?_⟩ <;> rw [if_neg (by simp)]
